import Mathlib

/-!
Verification of the `stac` Artifactory client (`src/stac/client.py`).

The embedding below translates the module `stac.client` into Lean:

* `MavenArtifactUrlGenerator` embeds `_MavenArtifactUrlGenerator`, the pure
  URL-construction component.
* `MavenArtifactoryClient` embeds the orchestrator class of the same name.
  Its network-facing dependency, the DAO `stac.http.VersionApiDao`, is not
  part of `src/`; it is modelled from the spec as a record of abstract query
  behaviours together with the session and configuration it is bound to.
* Exceptions are modelled by the inductive `StacError`; `requests.HTTPError`
  is modelled by `HTTPError`, carrying an optional response (whose only
  relevant attribute is its status code).
* Each client operation returns, besides its `Except` result, the list of
  DAO calls it performed, in order, so that "performs exactly one network
  call" and "performs no network call" are statable.

Machine integers: Python integers are unbounded, so `limit` is an `Int`.
-/

namespace Stac

/-- Embeds Python `full_name.rsplit('.', 1)` followed by unpacking into two
variables, at the level of character lists: returns the pieces before and
after the last `'.'`, or `none` when there is no `'.'` (in Python the unpack
of a one-element list raises `ValueError`). -/
def rsplitDotAux : List Char → Option (List Char × List Char)
  | [] => none
  | c :: rest =>
    match rsplitDotAux rest with
    | some (g, a) => some (c :: g, a)
    | none => if c = '.' then some ([], rest) else none

/-- Embeds `group, artifact = full_name.rsplit('.', 1)`: `some (group, artifact)`
splitting on the last dot, `none` when `full_name` has no dot. -/
def rsplitDot (s : String) : Option (String × String) :=
  match rsplitDotAux s.toList with
  | some (g, a) => some (String.mk g, String.mk a)
  | none => none

/-- Embeds Python `group.replace('.', '/')` (single-character pattern, so it
is exactly a character map). -/
def replaceDotWithSlash (s : String) : String :=
  String.mk (s.toList.map (fun c => if c = '.' then '/' else c))

/-- Embeds `_MavenArtifactUrlGenerator.__init__`: the two configured
constants. -/
structure MavenArtifactUrlGenerator where
  base : String
  repo : String
deriving DecidableEq

/-- Embeds `_MavenArtifactUrlGenerator.get_version_url`. -/
def MavenArtifactUrlGenerator.get_version_url (g : MavenArtifactUrlGenerator)
    (group artifact packaging version : String) (descriptor : Option String) : String :=
  let group_path := replaceDotWithSlash group
  let artifact_name :=
    match descriptor with
    | some d => artifact ++ "-" ++ version ++ "-" ++ d ++ "." ++ packaging
    | none => artifact ++ "-" ++ version ++ "." ++ packaging
  String.intercalate "/" [g.base, g.repo, group_path, artifact, version, artifact_name]

end Stac

namespace Stac

/-- Models the response attached to a `requests.HTTPError`; the only
attribute the client reads is `status_code`. -/
structure Response where
  status_code : Nat
deriving DecidableEq

/-- Models `requests.HTTPError`: a transport-level error whose `response`
may be absent (`e.response is None`). -/
structure HTTPError where
  response : Option Response
deriving DecidableEq

/-- Models the exceptions the client can raise: the passthrough transport
error, `stac.exceptions.NoMatchingVersionsError` (message plus optional
cause), and Python `ValueError`. -/
inductive StacError where
  | httpError (e : HTTPError)
  | noMatchingVersions (message : String) (cause : Option HTTPError)
  | valueError (message : String)
deriving DecidableEq

/-- One network call made through the DAO, with the arguments it received. -/
inductive DaoCall where
  | mostRecentVersions (group artifact : String) (limit : Int) (integration : Bool)
  | mostRecentRelease (group artifact : String)
deriving DecidableEq

/-- Models the transport session `requests.Session()`: the only state the
client code touches is the optional `(username, password)` auth pair. -/
structure Session where
  auth : Option (String × String)
deriving DecidableEq

/-- Modelled from the spec: `stac.http.VersionApiDao` is not under `src/`.
Per the spec (§4.2, §4.4) it is the Version Query Service bound to the
transport session and `(base_url, repo)`, exposing a most-recent-versions
query and a most-recent-release query, each of which either returns a value
or surfaces a transport-level `HTTPError`. The two query outcomes are
abstract behaviour fields. -/
structure VersionApiDao where
  session : Session
  base_url : String
  repo : String
  query_versions : String → String → Int → Bool → Except HTTPError (List String)
  query_release : String → String → Except HTTPError String

/-- Models `VersionApiDao.get_most_recent_versions` as observing the
abstract query behaviour. -/
def VersionApiDao.get_most_recent_versions (d : VersionApiDao)
    (group artifact : String) (limit : Int) (integration : Bool) :
    Except HTTPError (List String) :=
  d.query_versions group artifact limit integration

/-- Models `VersionApiDao.get_most_recent_release` as observing the abstract
query behaviour. -/
def VersionApiDao.get_most_recent_release (d : VersionApiDao)
    (group artifact : String) : Except HTTPError String :=
  d.query_release group artifact

/-- Embeds `MavenArtifactoryClientConfig`. -/
structure MavenArtifactoryClientConfig where
  base_url : String
  repo : String
  is_snapshot : Bool
  dao : VersionApiDao

/-- Embeds the state held by `MavenArtifactoryClient` after `__init__`. -/
structure MavenArtifactoryClient where
  is_snapshot : Bool
  dao : VersionApiDao
  artifact_urls : MavenArtifactUrlGenerator

/-- Embeds `MavenArtifactoryClient.__init__`. -/
def MavenArtifactoryClient.ofConfig (config : MavenArtifactoryClientConfig) :
    MavenArtifactoryClient :=
  { is_snapshot := config.is_snapshot
    dao := config.dao
    artifact_urls := { base := config.base_url, repo := config.repo } }

/-- Embeds `new_maven_client`. The abstract query behaviours stand for the
remote server reached through `stac.http.VersionApiDao(session, base_url,
repo)` (that module is not under `src/`); everything else follows the
factory line by line. -/
def new_maven_client (base_url repo : String) (is_snapshot : Bool)
    (username password : Option String)
    (query_versions : String → String → Int → Bool → Except HTTPError (List String))
    (query_release : String → String → Except HTTPError String) :
    MavenArtifactoryClient :=
  let session : Session :=
    match username, password with
    | some u, some p => { auth := some (u, p) }
    | _, _ => { auth := none }
  MavenArtifactoryClient.ofConfig
    { base_url := base_url
      repo := repo
      is_snapshot := is_snapshot
      dao :=
        { session := session
          base_url := base_url
          repo := repo
          query_versions := query_versions
          query_release := query_release } }

/-- Embeds `MavenArtifactoryClient._get_wrapped_exception`. -/
def MavenArtifactoryClient.get_wrapped_exception (c : MavenArtifactoryClient)
    (group artifact : String) (cause : Option HTTPError) : StacError :=
  let version_type := if c.is_snapshot then "integration" else "non-integration"
  .noMatchingVersions
    ("No " ++ version_type ++ " versions of " ++ group ++ "." ++ artifact ++
      " could be found. It might be the case that there have not been any " ++
      version_type ++ " deployments done yet.")
    cause

/-- Embeds the `except requests.HTTPError` block that appears in both
`get_latest_version` and `get_latest_versions`: a 404-carrying error is
wrapped into `NoMatchingVersionsError` with the original error as cause;
any other error (including one with no response) is re-raised unchanged. -/
def MavenArtifactoryClient.translate_http_error (c : MavenArtifactoryClient)
    (group artifact : String) (e : HTTPError) : StacError :=
  match e.response with
  | some r =>
    if r.status_code = 404 then c.get_wrapped_exception group artifact (some e)
    else .httpError e
  | none => .httpError e

/-- Embeds `MavenArtifactoryClient.get_version_url`: split on the last dot
(a name with no dot makes the unpack raise `ValueError`), then delegate to
the URL generator. No DAO interaction is possible: the definition does not
mention `c.dao`. -/
def MavenArtifactoryClient.get_version_url (c : MavenArtifactoryClient)
    (full_name packaging version : String) (descriptor : Option String) :
    Except StacError String :=
  match rsplitDot full_name with
  | none => .error (.valueError "not enough values to unpack (expected 2, got 1)")
  | some (group, artifact) =>
    .ok (c.artifact_urls.get_version_url group artifact packaging version descriptor)

/-- Embeds `MavenArtifactoryClient.get_latest_version`, inlining the private
helpers `_get_latest_release_version` and `_get_latest_snapshot_version`.
The second component lists the DAO calls performed, in order. -/
def MavenArtifactoryClient.get_latest_version (c : MavenArtifactoryClient)
    (full_name : String) : Except StacError String × List DaoCall :=
  match rsplitDot full_name with
  | none => (.error (.valueError "not enough values to unpack (expected 2, got 1)"), [])
  | some (group, artifact) =>
    if c.is_snapshot then
      match c.dao.get_most_recent_versions group artifact 1 true with
      | .error e =>
        (.error (c.translate_http_error group artifact e),
          [.mostRecentVersions group artifact 1 true])
      | .ok [] =>
        (.error (c.get_wrapped_exception group artifact none),
          [.mostRecentVersions group artifact 1 true])
      | .ok (v :: _) =>
        (.ok v, [.mostRecentVersions group artifact 1 true])
    else
      match c.dao.get_most_recent_release group artifact with
      | .error e =>
        (.error (c.translate_http_error group artifact e),
          [.mostRecentRelease group artifact])
      | .ok version =>
        (.ok version, [.mostRecentRelease group artifact])

/-- Embeds `MavenArtifactoryClient.get_latest_versions`. The limit check
precedes the split, which precedes the single DAO call; an empty result
list is turned into `NoMatchingVersionsError` with no cause. The second
component lists the DAO calls performed, in order. -/
def MavenArtifactoryClient.get_latest_versions (c : MavenArtifactoryClient)
    (full_name : String) (limit : Int) :
    Except StacError (List String) × List DaoCall :=
  if limit < 1 then
    (.error (.valueError "Releases limit must be positive"), [])
  else
    match rsplitDot full_name with
    | none => (.error (.valueError "not enough values to unpack (expected 2, got 1)"), [])
    | some (group, artifact) =>
      match c.dao.get_most_recent_versions group artifact limit c.is_snapshot with
      | .error e =>
        (.error (c.translate_http_error group artifact e),
          [.mostRecentVersions group artifact limit c.is_snapshot])
      | .ok versions =>
        if versions.isEmpty then
          (.error (c.get_wrapped_exception group artifact none),
            [.mostRecentVersions group artifact limit c.is_snapshot])
        else
          (.ok versions, [.mostRecentVersions group artifact limit c.is_snapshot])

/-! Concrete fixtures, used to evaluate the verified properties on concrete
inputs. -/

/-- Query behaviour that always succeeds with a fixed version list. -/
def qvOk (vs : List String) : String → String → Int → Bool → Except HTTPError (List String) :=
  fun _ _ _ _ => .ok vs

/-- Release-query behaviour that always succeeds with a fixed version. -/
def qrOk (v : String) : String → String → Except HTTPError String :=
  fun _ _ => .ok v

/-- Query behaviour that always fails with a fixed transport error. -/
def qvErr (e : HTTPError) : String → String → Int → Bool → Except HTTPError (List String) :=
  fun _ _ _ _ => .error e

/-- Release-query behaviour that always fails with a fixed transport error. -/
def qrErr (e : HTTPError) : String → String → Except HTTPError String :=
  fun _ _ => .error e

/-- A concrete client over the given query behaviours. -/
def clientFix (snap : Bool)
    (qv : String → String → Int → Bool → Except HTTPError (List String))
    (qr : String → String → Except HTTPError String) : MavenArtifactoryClient :=
  { is_snapshot := snap
    dao :=
      { session := { auth := none }
        base_url := "https://x/artifactory"
        repo := "libs-release"
        query_versions := qv
        query_release := qr }
    artifact_urls := { base := "https://x/artifactory", repo := "libs-release" } }

/-- A transport error carrying a 404 response. -/
def e404 : HTTPError := { response := some { status_code := 404 } }

/-- A transport error carrying a 500 response. -/
def e500 : HTTPError := { response := some { status_code := 500 } }

/-- A transport error carrying no response at all. -/
def eNoResp : HTTPError := { response := none }

/-! Correctness of the last-dot split. -/

/-- A character-list split result of `rsplitDotAux` really is a split at the
last dot: `none` means no dot at all, and `some (g, a)` means the list is
`g ++ '.' :: a` with no dot in `a`. -/
theorem rsplitDotAux_spec (cs : List Char) :
    (rsplitDotAux cs = none → '.' ∉ cs) ∧
    (∀ g a, rsplitDotAux cs = some (g, a) → cs = g ++ '.' :: a ∧ '.' ∉ a) := by
  induction cs with
  | nil =>
    refine ⟨fun _ => List.not_mem_nil _, fun g a h => ?_⟩
    simp [rsplitDotAux] at h
  | cons c rest ih =>
    cases hr : rsplitDotAux rest with
    | some p =>
      obtain ⟨g, a⟩ := p
      obtain ⟨hrest, hnd⟩ := ih.2 g a hr
      refine ⟨fun h => ?_, fun g0 a0 h => ?_⟩
      · simp [rsplitDotAux, hr] at h
      · simp [rsplitDotAux, hr] at h
        obtain ⟨hg, ha⟩ := h
        subst hg
        subst ha
        exact ⟨by simp [hrest], hnd⟩
    | none =>
      have hnd := ih.1 hr
      by_cases hc : c = '.'
      · subst hc
        refine ⟨fun h => ?_, fun g0 a0 h => ?_⟩
        · simp [rsplitDotAux, hr] at h
        · simp [rsplitDotAux, hr] at h
          obtain ⟨hg, ha⟩ := h
          subst hg
          subst ha
          exact ⟨rfl, hnd⟩
      · refine ⟨fun _ => ?_, fun g0 a0 h => ?_⟩
        · intro hmem
          rcases List.mem_cons.mp hmem with h1 | h2
          · exact hc h1.symm
          · exact hnd h2
        · simp [rsplitDotAux, hr, hc] at h

theorem mk_append (l1 l2 : List Char) :
    String.mk l1 ++ String.mk l2 = String.mk (l1 ++ l2) := rfl

theorem string_eta (s : String) : String.mk s.toList = s := rfl

/-- When `rsplitDot` succeeds, the input is exactly the group, a dot, and
the artifact, and the artifact part has no further dot: the split happened
at the last dot. -/
theorem rsplitDot_some_spec (s g a : String) (h : rsplitDot s = some (g, a)) :
    s = g ++ "." ++ a ∧ '.' ∉ a.toList := by
  unfold rsplitDot at h
  cases hr : rsplitDotAux s.toList with
  | none => rw [hr] at h; simp at h
  | some p =>
    obtain ⟨g0, a0⟩ := p
    rw [hr] at h
    simp at h
    obtain ⟨hg, ha⟩ := h
    obtain ⟨hs, hnd⟩ := (rsplitDotAux_spec s.toList).2 g0 a0 hr
    subst hg
    subst ha
    constructor
    · rw [mk_append, mk_append]
      conv_lhs => rw [← string_eta s]
      rw [hs]
      simp
    · exact hnd

/-- A name containing a dot splits successfully. -/
theorem rsplitDot_isSome_of_dot (s : String) (h : '.' ∈ s.toList) :
    ∃ g a, rsplitDot s = some (g, a) := by
  unfold rsplitDot
  cases hr : rsplitDotAux s.toList with
  | none => exact absurd h ((rsplitDotAux_spec s.toList).1 hr)
  | some p => exact ⟨String.mk p.1, String.mk p.2, by simp⟩

/-- A name with no dot fails to split. -/
theorem rsplitDot_none_of_no_dot (s : String) (h : '.' ∉ s.toList) :
    rsplitDot s = none := by
  unfold rsplitDot
  cases hr : rsplitDotAux s.toList with
  | none => rfl
  | some p =>
    obtain ⟨hs, _⟩ := (rsplitDotAux_spec s.toList).2 p.1 p.2 (by rw [hr])
    exact absurd (hs ▸ List.mem_append_right _ (List.mem_cons_self _ _)) h

/-! Behaviour of the error-translation block and of the two network-facing
operations at each possible DAO outcome. -/

/-- A transport error carrying a 404 response is turned into the wrapped
domain error, with the transport error as cause. -/
theorem translate_http_error_of_404 (c : MavenArtifactoryClient) (g a : String)
    (e : HTTPError) (r : Response) (hr : e.response = some r)
    (h404 : r.status_code = 404) :
    c.translate_http_error g a e = c.get_wrapped_exception g a (some e) := by
  simp [MavenArtifactoryClient.translate_http_error, hr, h404]

/-- A transport error that does not carry a 404 response (either a different
status code or no response at all) is re-raised unchanged. -/
theorem translate_http_error_of_not404 (c : MavenArtifactoryClient) (g a : String)
    (e : HTTPError) (hno : ∀ r, e.response = some r → r.status_code ≠ 404) :
    c.translate_http_error g a e = .httpError e := by
  unfold MavenArtifactoryClient.translate_http_error
  cases he : e.response with
  | none => rfl
  | some r => simp [hno r he]

/-- The wrapped exception is always a `NoMatchingVersionsError` with the
requested cause. -/
theorem get_wrapped_exception_shape (c : MavenArtifactoryClient) (g a : String)
    (cause : Option HTTPError) :
    ∃ m, c.get_wrapped_exception g a cause = .noMatchingVersions m cause :=
  ⟨_, rfl⟩

/-- When the DAO query fails, `get_latest_versions` applies the
error-translation block to its error, after the single query call. -/
theorem get_latest_versions_dao_error (c : MavenArtifactoryClient)
    (fn g a : String) (hs : rsplitDot fn = some (g, a))
    (limit : Int) (hl : 1 ≤ limit) (e : HTTPError)
    (hq : c.dao.query_versions g a limit c.is_snapshot = .error e) :
    c.get_latest_versions fn limit =
      (.error (c.translate_http_error g a e),
        [.mostRecentVersions g a limit c.is_snapshot]) := by
  have hnl : ¬ limit < 1 := by omega
  simp [MavenArtifactoryClient.get_latest_versions, hnl, hs,
    VersionApiDao.get_most_recent_versions, hq]

/-- When every DAO query fails with the same error, `get_latest_version`
applies the error-translation block to it, in either policy mode. -/
theorem get_latest_version_dao_error (c : MavenArtifactoryClient)
    (fn g a : String) (hs : rsplitDot fn = some (g, a)) (e : HTTPError)
    (hqv : c.dao.query_versions g a 1 true = .error e)
    (hqr : c.dao.query_release g a = .error e) :
    (c.get_latest_version fn).1 = .error (c.translate_http_error g a e) := by
  cases hsnap : c.is_snapshot with
  | true =>
    simp [MavenArtifactoryClient.get_latest_version, hs, hsnap,
      VersionApiDao.get_most_recent_versions, hqv]
  | false =>
    simp [MavenArtifactoryClient.get_latest_version, hs, hsnap,
      VersionApiDao.get_most_recent_release, hqr]

/-! The claims. -/

/-- C1: for every group, artifact, packaging, version, and optional
descriptor, `get_version_url` returns the string obtained by joining with
`/` the base URL, the repository name, the group with every `.` replaced by
`/`, the artifact, the version, and a filename equal to
`artifact-version.packaging` when no descriptor is given and
`artifact-version-descriptor.packaging` when a descriptor is given. -/
theorem C1_get_version_url_shape (base repo group artifact packaging version : String)
    (descriptor : Option String) :
    MavenArtifactUrlGenerator.get_version_url ⟨base, repo⟩ group artifact
        packaging version descriptor =
      base ++ "/" ++ repo ++ "/" ++ replaceDotWithSlash group ++ "/" ++ artifact ++ "/" ++
        version ++ "/" ++
        (match descriptor with
         | none => artifact ++ "-" ++ version ++ "." ++ packaging
         | some d => artifact ++ "-" ++ version ++ "-" ++ d ++ "." ++ packaging) := by
  cases descriptor <;>
    simp [MavenArtifactUrlGenerator.get_version_url, String.intercalate,
      String.intercalate.go, String.append_assoc]

/-- C2: for every client and every full name containing a dot, if the
underlying query raises a transport error whose status code is 404, both
`get_latest_version` and `get_latest_versions` raise
`NoMatchingVersionsError` whose cause is that transport error; if the
transport error's status code is not 404, both operations re-raise the
original transport error unchanged, not wrapped. -/
theorem C2_http_error_translation (c : MavenArtifactoryClient)
    (full_name g a : String) (hs : rsplitDot full_name = some (g, a))
    (limit : Int) (hl : 1 ≤ limit) (e : HTTPError)
    (hqv : ∀ g0 a0 l i, c.dao.query_versions g0 a0 l i = .error e)
    (hqr : ∀ g0 a0, c.dao.query_release g0 a0 = .error e) :
    ((∃ r, e.response = some r ∧ r.status_code = 404) →
      (∃ m, (c.get_latest_version full_name).1 =
        .error (.noMatchingVersions m (some e))) ∧
      (∃ m, (c.get_latest_versions full_name limit).1 =
        .error (.noMatchingVersions m (some e)))) ∧
    ((∀ r, e.response = some r → r.status_code ≠ 404) →
      (c.get_latest_version full_name).1 = .error (.httpError e) ∧
      (c.get_latest_versions full_name limit).1 = .error (.httpError e)) := by
  have h1 := get_latest_version_dao_error c full_name g a hs e (hqv g a 1 true) (hqr g a)
  have h2 := get_latest_versions_dao_error c full_name g a hs limit hl e
    (hqv g a limit c.is_snapshot)
  constructor
  · rintro ⟨r, hr, h404⟩
    have ht := translate_http_error_of_404 c g a e r hr h404
    obtain ⟨m, hm⟩ := get_wrapped_exception_shape c g a (some e)
    rw [ht, hm] at h1 h2
    exact ⟨⟨m, h1⟩, ⟨m, by rw [h2]⟩⟩
  · intro hno
    have ht := translate_http_error_of_not404 c g a e hno
    rw [ht] at h1 h2
    exact ⟨h1, by rw [h2]⟩

/-- C2 witness: evaluated on a concrete client whose DAO always raises a
404-carrying error, and on one whose DAO always raises a 500-carrying
error. -/
theorem C2_witness :
    (∃ m, ((clientFix false (qvErr e404) (qrErr e404)).get_latest_version "a.b").1 =
      .error (.noMatchingVersions m (some e404))) ∧
    (∃ m, ((clientFix false (qvErr e404) (qrErr e404)).get_latest_versions "a.b" 5).1 =
      .error (.noMatchingVersions m (some e404))) ∧
    ((clientFix true (qvErr e500) (qrErr e500)).get_latest_version "a.b").1 =
      .error (.httpError e500) ∧
    ((clientFix true (qvErr e500) (qrErr e500)).get_latest_versions "a.b" 5).1 =
      .error (.httpError e500) := by
  have hno : ∀ r, e500.response = some r → r.status_code ≠ 404 := by
    intro r hr
    have h : (some ({ status_code := 500 } : Response) : Option Response) = some r := hr
    have : r = { status_code := 500 } := (Option.some.inj h).symm
    subst this
    decide
  have h1 := (C2_http_error_translation (clientFix false (qvErr e404) (qrErr e404))
    "a.b" "a" "b" rfl 5 (by decide) e404 (fun _ _ _ _ => rfl) (fun _ _ => rfl)).1
    ⟨{ status_code := 404 }, rfl, rfl⟩
  have h2 := (C2_http_error_translation (clientFix true (qvErr e500) (qrErr e500))
    "a.b" "a" "b" rfl 5 (by decide) e500 (fun _ _ _ _ => rfl) (fun _ _ => rfl)).2 hno
  exact ⟨h1.1, h1.2, h2.1, h2.2⟩

/-- C3: for every client and every valid full name and limit at least 1, if
the version query succeeds but returns an empty sequence,
`get_latest_versions` raises `NoMatchingVersionsError` with no cause, whose
message names the group, the artifact, and the configured policy
(integration when `is_snapshot` is true, non-integration otherwise). -/
theorem C3_empty_result_error (c : MavenArtifactoryClient)
    (full_name g a : String) (hs : rsplitDot full_name = some (g, a))
    (limit : Int) (hl : 1 ≤ limit)
    (hq : c.dao.query_versions g a limit c.is_snapshot = .ok []) :
    c.get_latest_versions full_name limit =
      (.error (.noMatchingVersions
        ("No " ++ (if c.is_snapshot then "integration" else "non-integration") ++
          " versions of " ++ g ++ "." ++ a ++
          " could be found. It might be the case that there have not been any " ++
          (if c.is_snapshot then "integration" else "non-integration") ++
          " deployments done yet.") none),
       [.mostRecentVersions g a limit c.is_snapshot]) := by
  have hnl : ¬ limit < 1 := by omega
  simp [MavenArtifactoryClient.get_latest_versions, hnl, hs,
    VersionApiDao.get_most_recent_versions, hq,
    MavenArtifactoryClient.get_wrapped_exception]

/-- C3 witness: evaluated on a concrete release-mode client whose DAO
returns an empty list. -/
theorem C3_witness :
    (clientFix false (qvOk []) (qrOk "1.0")).get_latest_versions "a.b" 5 =
      (.error (.noMatchingVersions
        ("No non-integration versions of a.b could be found. It might be the case " ++
          "that there have not been any non-integration deployments done yet.") none),
       [.mostRecentVersions "a" "b" 5 false]) := by
  have h := C3_empty_result_error (clientFix false (qvOk []) (qrOk "1.0"))
    "a.b" "a" "b" rfl 5 (by decide) rfl
  exact h

/-- C4: for every full name containing a dot, on a snapshot-mode client
`get_latest_version` performs the single DAO call "most recent versions,
limit 1, integration true" and returns the first element of the result,
raising `NoMatchingVersionsError` if the result is empty; on a release-mode
client it performs the single DAO call "most recent release" and returns
its result. -/
theorem C4_get_latest_version_policy (c : MavenArtifactoryClient)
    (full_name g a : String) (hs : rsplitDot full_name = some (g, a)) :
    (c.is_snapshot = true →
      (c.get_latest_version full_name).2 = [.mostRecentVersions g a 1 true] ∧
      (∀ v vs, c.dao.query_versions g a 1 true = .ok (v :: vs) →
        (c.get_latest_version full_name).1 = .ok v) ∧
      (c.dao.query_versions g a 1 true = .ok [] →
        ∃ m, (c.get_latest_version full_name).1 =
          .error (.noMatchingVersions m none))) ∧
    (c.is_snapshot = false →
      (c.get_latest_version full_name).2 = [.mostRecentRelease g a] ∧
      (∀ v, c.dao.query_release g a = .ok v →
        (c.get_latest_version full_name).1 = .ok v)) := by
  constructor
  · intro hsnap
    refine ⟨?_, fun v vs hq => ?_, fun hq => ?_⟩
    · cases hq : c.dao.query_versions g a 1 true with
      | error e =>
        simp [MavenArtifactoryClient.get_latest_version, hs, hsnap,
          VersionApiDao.get_most_recent_versions, hq]
      | ok l =>
        cases l <;>
          simp [MavenArtifactoryClient.get_latest_version, hs, hsnap,
            VersionApiDao.get_most_recent_versions, hq]
    · simp [MavenArtifactoryClient.get_latest_version, hs, hsnap,
        VersionApiDao.get_most_recent_versions, hq]
    · obtain ⟨m, hm⟩ := get_wrapped_exception_shape c g a none
      refine ⟨m, ?_⟩
      simp [MavenArtifactoryClient.get_latest_version, hs, hsnap,
        VersionApiDao.get_most_recent_versions, hq, hm]
  · intro hsnap
    refine ⟨?_, fun v hq => ?_⟩
    · cases hq : c.dao.query_release g a with
      | error e =>
        simp [MavenArtifactoryClient.get_latest_version, hs, hsnap,
          VersionApiDao.get_most_recent_release, hq]
      | ok v =>
        simp [MavenArtifactoryClient.get_latest_version, hs, hsnap,
          VersionApiDao.get_most_recent_release, hq]
    · simp [MavenArtifactoryClient.get_latest_version, hs, hsnap,
        VersionApiDao.get_most_recent_release, hq]

/-- C4 witness: evaluated on a concrete snapshot-mode client and a concrete
release-mode client. -/
theorem C4_witness :
    ((clientFix true (qvOk ["2.0"]) (qrOk "1.0")).get_latest_version "a.b").2 =
      [.mostRecentVersions "a" "b" 1 true] ∧
    ((clientFix true (qvOk ["2.0"]) (qrOk "1.0")).get_latest_version "a.b").1 = .ok "2.0" ∧
    ((clientFix false (qvOk ["2.0"]) (qrOk "1.0")).get_latest_version "a.b").2 =
      [.mostRecentRelease "a" "b"] ∧
    ((clientFix false (qvOk ["2.0"]) (qrOk "1.0")).get_latest_version "a.b").1 = .ok "1.0" := by
  have hsnap := C4_get_latest_version_policy
    (clientFix true (qvOk ["2.0"]) (qrOk "1.0")) "a.b" "a" "b" rfl
  have hrel := C4_get_latest_version_policy
    (clientFix false (qvOk ["2.0"]) (qrOk "1.0")) "a.b" "a" "b" rfl
  have h1 := hsnap.1 rfl
  have h2 := hrel.2 rfl
  exact ⟨h1.1, h1.2.1 "2.0" [] rfl, h2.1, h2.2 "1.0" rfl⟩

/-- C5: for every release-mode client, every full name containing a dot,
and every limit at least 1, `get_latest_versions` performs exactly one
version-search call, with integration false and the given limit, and
returns the sequence the query service produced, unchanged in content and
order, of length at most the limit. The length bound on what the query
service produces is the service's own contract (it is a hypothesis here:
the DAO is outside this module). -/
theorem C5_release_mode_order (c : MavenArtifactoryClient)
    (hrel : c.is_snapshot = false) (full_name g a : String)
    (hs : rsplitDot full_name = some (g, a)) (limit : Int) (hl : 1 ≤ limit)
    (vs : List String) (hq : c.dao.query_versions g a limit false = .ok vs)
    (hlen : (vs.length : Int) ≤ limit) :
    (c.get_latest_versions full_name limit).2 =
      [.mostRecentVersions g a limit false] ∧
    (vs ≠ [] → (c.get_latest_versions full_name limit).1 = .ok vs) ∧
    (∀ out, (c.get_latest_versions full_name limit).1 = .ok out →
      out = vs ∧ (out.length : Int) ≤ limit) := by
  have hnl : ¬ limit < 1 := by omega
  cases vs with
  | nil =>
    refine ⟨?_, fun hne => absurd rfl hne, fun out hout => ?_⟩
    · simp [MavenArtifactoryClient.get_latest_versions, hnl, hs,
        VersionApiDao.get_most_recent_versions, hrel, hq]
    · simp [MavenArtifactoryClient.get_latest_versions, hnl, hs,
        VersionApiDao.get_most_recent_versions, hrel, hq] at hout
  | cons v rest =>
    refine ⟨?_, fun _ => ?_, fun out hout => ?_⟩
    · simp [MavenArtifactoryClient.get_latest_versions, hnl, hs,
        VersionApiDao.get_most_recent_versions, hrel, hq]
    · simp [MavenArtifactoryClient.get_latest_versions, hnl, hs,
        VersionApiDao.get_most_recent_versions, hrel, hq]
    · simp [MavenArtifactoryClient.get_latest_versions, hnl, hs,
        VersionApiDao.get_most_recent_versions, hrel, hq] at hout
      subst hout
      exact ⟨rfl, hlen⟩

/-- C5 witness: evaluated on a concrete release-mode client whose DAO
returns three versions for a limit of 3. -/
theorem C5_witness :
    ((clientFix false (qvOk ["1.6.0", "1.5.4", "1.5.3"]) (qrOk "1.6.0")).get_latest_versions
        "a.b" 3).2 = [.mostRecentVersions "a" "b" 3 false] ∧
    ((clientFix false (qvOk ["1.6.0", "1.5.4", "1.5.3"]) (qrOk "1.6.0")).get_latest_versions
        "a.b" 3).1 = .ok ["1.6.0", "1.5.4", "1.5.3"] := by
  have h := C5_release_mode_order
    (clientFix false (qvOk ["1.6.0", "1.5.4", "1.5.3"]) (qrOk "1.6.0")) rfl
    "a.b" "a" "b" rfl 3 (by decide) ["1.6.0", "1.5.4", "1.5.3"] rfl (by decide)
  exact ⟨h.1, h.2.1 (by decide)⟩

/-- C6: for every full name and every limit strictly below 1 (zero or
negative), `get_latest_versions` raises a ValueError-class invalid-argument
error, and it does so before performing any network call: the list of DAO
calls is empty. -/
theorem C6_limit_validation (c : MavenArtifactoryClient)
    (full_name : String) (limit : Int) (hl : limit < 1) :
    c.get_latest_versions full_name limit =
      (.error (.valueError "Releases limit must be positive"), []) := by
  simp [MavenArtifactoryClient.get_latest_versions, hl]

/-- C6 witness: evaluated on a concrete client at limit 0. -/
theorem C6_witness :
    (clientFix false (qvOk ["1.0"]) (qrOk "1.0")).get_latest_versions "a.b" 0 =
      (.error (.valueError "Releases limit must be positive"), []) :=
  C6_limit_validation (clientFix false (qvOk ["1.0"]) (qrOk "1.0")) "a.b" 0 (by decide)

/-- C7: every operation splits the full name into group and artifact on the
last dot — when the split succeeds the name is the group, a dot, and a
dot-free artifact, and `get_version_url` delegates to the URL generator on
that pair; every name containing a dot splits; a name with no dot makes
each of the three operations fail with the ValueError-class
invalid-argument error, before any network call and not wrapped in any
domain error. -/
theorem C7_last_dot_split (c : MavenArtifactoryClient)
    (full_name packaging version : String) (descriptor : Option String)
    (limit : Int) (hl : 1 ≤ limit) :
    (∀ g a, rsplitDot full_name = some (g, a) →
      full_name = g ++ "." ++ a ∧ '.' ∉ a.toList ∧
      c.get_version_url full_name packaging version descriptor =
        .ok (c.artifact_urls.get_version_url g a packaging version descriptor)) ∧
    ('.' ∈ full_name.toList → ∃ g a, rsplitDot full_name = some (g, a)) ∧
    ('.' ∉ full_name.toList →
      (∃ m, c.get_version_url full_name packaging version descriptor =
        .error (.valueError m)) ∧
      (∃ m, (c.get_latest_version full_name).1 = .error (.valueError m)) ∧
      (c.get_latest_version full_name).2 = [] ∧
      (∃ m, (c.get_latest_versions full_name limit).1 = .error (.valueError m)) ∧
      (c.get_latest_versions full_name limit).2 = []) := by
  refine ⟨fun g a h => ?_, rsplitDot_isSome_of_dot full_name, fun hnd => ?_⟩
  · obtain ⟨h1, h2⟩ := rsplitDot_some_spec full_name g a h
    exact ⟨h1, h2, by simp [MavenArtifactoryClient.get_version_url, h]⟩
  · have hn := rsplitDot_none_of_no_dot full_name hnd
    have hnl : ¬ limit < 1 := by omega
    refine ⟨⟨"not enough values to unpack (expected 2, got 1)", ?_⟩,
      ⟨"not enough values to unpack (expected 2, got 1)", ?_⟩, ?_,
      ⟨"not enough values to unpack (expected 2, got 1)", ?_⟩, ?_⟩ <;>
      simp [MavenArtifactoryClient.get_version_url,
        MavenArtifactoryClient.get_latest_version,
        MavenArtifactoryClient.get_latest_versions, hn, hnl]

/-- C7 witness: evaluated on a concrete client at the dot-free name
`nodot`. -/
theorem C7_witness :
    (∃ m, (clientFix false (qvOk ["1.0"]) (qrOk "1.0")).get_version_url
      "nodot" "jar" "1.0" none = .error (.valueError m)) ∧
    (∃ m, ((clientFix false (qvOk ["1.0"]) (qrOk "1.0")).get_latest_version "nodot").1 =
      .error (.valueError m)) ∧
    ((clientFix false (qvOk ["1.0"]) (qrOk "1.0")).get_latest_version "nodot").2 = [] ∧
    (∃ m, ((clientFix false (qvOk ["1.0"]) (qrOk "1.0")).get_latest_versions "nodot" 5).1 =
      .error (.valueError m)) ∧
    ((clientFix false (qvOk ["1.0"]) (qrOk "1.0")).get_latest_versions "nodot" 5).2 = [] :=
  (C7_last_dot_split (clientFix false (qvOk ["1.0"]) (qrOk "1.0"))
    "nodot" "jar" "1.0" none 5 (by decide)).2.2 (by decide)

/-- C8: `new_maven_client` attaches the username-password pair as the
session's request-level authentication exactly when both are given;
providing only one (or neither) yields a client with no authentication, not
an error; and construction performs no network access: every observable
component of the constructed client other than the stored query behaviours
is independent of those behaviours. -/
theorem C8_factory_auth (base repo : String) (is_snapshot : Bool)
    (username password : Option String)
    (qv : String → String → Int → Bool → Except HTTPError (List String))
    (qr : String → String → Except HTTPError String) :
    (∀ u p, username = some u → password = some p →
      (new_maven_client base repo is_snapshot username password qv qr).dao.session.auth =
        some (u, p)) ∧
    ((username = none ∨ password = none) →
      (new_maven_client base repo is_snapshot username password qv qr).dao.session.auth =
        none) ∧
    (∀ (qv2 : String → String → Int → Bool → Except HTTPError (List String))
        (qr2 : String → String → Except HTTPError String),
      (new_maven_client base repo is_snapshot username password qv qr).is_snapshot =
        (new_maven_client base repo is_snapshot username password qv2 qr2).is_snapshot ∧
      (new_maven_client base repo is_snapshot username password qv qr).artifact_urls =
        (new_maven_client base repo is_snapshot username password qv2 qr2).artifact_urls ∧
      (new_maven_client base repo is_snapshot username password qv qr).dao.session =
        (new_maven_client base repo is_snapshot username password qv2 qr2).dao.session ∧
      (new_maven_client base repo is_snapshot username password qv qr).dao.base_url =
        (new_maven_client base repo is_snapshot username password qv2 qr2).dao.base_url ∧
      (new_maven_client base repo is_snapshot username password qv qr).dao.repo =
        (new_maven_client base repo is_snapshot username password qv2 qr2).dao.repo) := by
  refine ⟨fun u p hu hp => ?_, fun h => ?_, fun qv2 qr2 => ?_⟩
  · subst hu
    subst hp
    rfl
  · rcases h with h | h <;> subst h
    · rfl
    · cases username <;> rfl
  · exact ⟨rfl, rfl, rfl, rfl, rfl⟩

/-- C8 witness: evaluated on concrete credentials, both given, only the
username given, and only the password given. -/
theorem C8_witness :
    (new_maven_client "https://x" "r" false (some "u") (some "p")
      (qvOk []) (qrOk "1.0")).dao.session.auth = some ("u", "p") ∧
    (new_maven_client "https://x" "r" false (some "u") none
      (qvOk []) (qrOk "1.0")).dao.session.auth = none ∧
    (new_maven_client "https://x" "r" false none (some "p")
      (qvOk []) (qrOk "1.0")).dao.session.auth = none :=
  ⟨(C8_factory_auth "https://x" "r" false (some "u") (some "p")
      (qvOk []) (qrOk "1.0")).1 "u" "p" rfl rfl,
   (C8_factory_auth "https://x" "r" false (some "u") none
      (qvOk []) (qrOk "1.0")).2.1 (Or.inr rfl),
   (C8_factory_auth "https://x" "r" false none (some "p")
      (qvOk []) (qrOk "1.0")).2.1 (Or.inl rfl)⟩

/-- C9: two clients constructed with the same base URL and repository but
arbitrary snapshot flags, credentials, and query behaviours return
identical URLs from `get_version_url` on every input: the URL depends only
on the base URL, the repository, and the call arguments. -/
theorem C9_url_independent_of_policy_and_auth (base repo : String)
    (s1 s2 : Bool) (u1 p1 u2 p2 : Option String)
    (qv1 qv2 : String → String → Int → Bool → Except HTTPError (List String))
    (qr1 qr2 : String → String → Except HTTPError String)
    (full_name packaging version : String) (descriptor : Option String) :
    (new_maven_client base repo s1 u1 p1 qv1 qr1).get_version_url
        full_name packaging version descriptor =
      (new_maven_client base repo s2 u2 p2 qv2 qr2).get_version_url
        full_name packaging version descriptor := rfl

/-- C10: a transport error carrying no response object at all propagates
unchanged out of both `get_latest_version` and `get_latest_versions`; it is
never translated into `NoMatchingVersionsError`. -/
theorem C10_no_response_passthrough (c : MavenArtifactoryClient)
    (full_name g a : String) (hs : rsplitDot full_name = some (g, a))
    (limit : Int) (hl : 1 ≤ limit) (e : HTTPError) (hresp : e.response = none)
    (hqv : ∀ g0 a0 l i, c.dao.query_versions g0 a0 l i = .error e)
    (hqr : ∀ g0 a0, c.dao.query_release g0 a0 = .error e) :
    (c.get_latest_version full_name).1 = .error (.httpError e) ∧
    (c.get_latest_versions full_name limit).1 = .error (.httpError e) := by
  have hno : ∀ r, e.response = some r → r.status_code ≠ 404 := by
    intro r hr
    rw [hresp] at hr
    exact absurd hr (by simp)
  have ht := translate_http_error_of_not404 c g a e hno
  have h1 := get_latest_version_dao_error c full_name g a hs e (hqv g a 1 true) (hqr g a)
  have h2 := get_latest_versions_dao_error c full_name g a hs limit hl e
    (hqv g a limit c.is_snapshot)
  rw [ht] at h1 h2
  exact ⟨h1, by rw [h2]⟩

/-- C10 witness: evaluated on a concrete client whose DAO always raises an
error with no response attached. -/
theorem C10_witness :
    ((clientFix false (qvErr eNoResp) (qrErr eNoResp)).get_latest_version "a.b").1 =
      .error (.httpError eNoResp) ∧
    ((clientFix false (qvErr eNoResp) (qrErr eNoResp)).get_latest_versions "a.b" 5).1 =
      .error (.httpError eNoResp) :=
  C10_no_response_passthrough (clientFix false (qvErr eNoResp) (qrErr eNoResp))
    "a.b" "a" "b" rfl 5 (by decide) eNoResp rfl (fun _ _ _ _ => rfl) (fun _ _ => rfl)

end Stac
